import Mathlib

/-!
Shallow embedding of the authentication subsystem of the react-node-app
backend: the auth controller (registerUser, loginUser, forgotPassword,
resetPassword, changePassword, refreshAccessToken), the access-token
middleware, and the AppError constants, over an explicit persistent store
of user records.  Timestamps are in milliseconds (JavaScript `Date.now()`);
JWT `iat`/`exp` claims are in seconds, as produced by the jsonwebtoken
library.  External cryptographic primitives (bcrypt, sha256, JWT signing)
are idealized as injective constructions.
-/

namespace ReactNodeApp

/-- Idealized bcrypt digest with cost 10: `bcrypt.hash(password, 10)`.
Salting is abstracted away; only `bcrypt.compare` ever inspects a digest. -/
def bcryptHash (password : String) : String := "bcrypt10$" ++ password

/-- Idealized `bcrypt.compare(password, digest)`. -/
def bcryptCompare (password digest : String) : Bool :=
  digest == bcryptHash password

/-- Idealized `crypto.createHash("sha256").update(s).digest("hex")`. -/
def sha256Hex (s : String) : String := "sha256$" ++ s

/-- A signed JSON Web Token: payload `{userId, iat, exp}` plus the signing
key.  `iat` and `exp` are in seconds (jsonwebtoken semantics). -/
structure Jwt where
  userId : Nat
  iat : Nat
  exp : Nat
  key : String
deriving DecidableEq, Repr

/-- `process.env.JWT_SECRET`, loaded once at startup. -/
def JWT_SECRET : String := "jwt-secret"

/-- `process.env.JWT_REFRESH_SECRET` (set, so it does not fall back to
`JWT_SECRET`). -/
def JWT_REFRESH_SECRET : String := "jwt-refresh-secret"

/-- `jwt.sign({userId}, key, {expiresIn})` at clock time `nowMs`
(milliseconds); `lifeSec` is the lifetime in seconds. -/
def jwtSign (userId : Nat) (key : String) (nowMs lifeSec : Nat) : Jwt :=
  { userId := userId, iat := nowMs / 1000, exp := nowMs / 1000 + lifeSec, key := key }

/-- `jwt.verify(token, key)` at clock time `nowMs`: checks the signature
(key match) and that the token is not expired; returns the decoded payload
or fails. -/
def jwtVerify (t : Jwt) (key : String) (nowMs : Nat) : Option Jwt :=
  if t.key = key ∧ nowMs / 1000 < t.exp then some t else none

/-- Helper: sign a 15-minute access token (`signAccessToken`). -/
def signAccessToken (userId : Nat) (nowMs : Nat) : Jwt :=
  jwtSign userId JWT_SECRET nowMs (15 * 60)

/-- Helper: sign a 7-day refresh token (`signRefreshToken`). -/
def signRefreshToken (userId : Nat) (nowMs : Nat) : Jwt :=
  jwtSign userId JWT_REFRESH_SECRET nowMs (7 * 24 * 60 * 60)

/-- One entry of `user.refreshTokens`: `{token, expiresAt}` with
`expiresAt` in milliseconds. -/
structure RefreshEntry where
  token : Jwt
  expiresAt : Nat
deriving DecidableEq, Repr

/-- A persisted user record, with every field the auth controller touches.
Optional fields model `undefined`. -/
structure User where
  id : Nat
  email : String
  passwordHash : String
  displayName : String
  passwordChangedAt : Option Nat := none
  lastPasswordChangeAt : Option Nat := none
  loginAttempts : Nat := 0
  accountLockedUntil : Option Nat := none
  passwordResetToken : Option String := none
  passwordResetExpires : Option Nat := none
  refreshTokens : List RefreshEntry := []
  lastLoginAt : Option Nat := none
deriving DecidableEq, Repr

/-- The persistent store: the collection of user records. -/
abbrev Db := List User

/-- `user.save()`: persist an updated record in place (records are keyed
by their immutable id). -/
def saveUser (db : Db) (u : User) : Db :=
  db.map fun v => if v.id = u.id then u else v

/-- `AppError(message, statusCode, code)` from utils (operational errors
only; the wire envelope is `{code, message, statusCode}`). -/
structure AppError where
  message : String
  statusCode : Nat
  code : String
deriving DecidableEq, Repr

/-- `AppError.INVALID_CREDENTIALS()`. -/
def AppError.INVALID_CREDENTIALS : AppError :=
  { message := "Invalid email or password", statusCode := 401, code := "AUTH_001" }

/-- `AppError.INVALID_CREDENTIALS('Current password is incorrect')`. -/
def AppError.INVALID_CREDENTIALS_current : AppError :=
  { message := "Current password is incorrect", statusCode := 401, code := "AUTH_001" }

/-- `AppError.UNAUTHORIZED()`. -/
def AppError.UNAUTHORIZED : AppError :=
  { message := "You must be logged in to access this resource", statusCode := 401, code := "AUTH_002" }

/-- `AppError.EMAIL_ALREADY_EXISTS()`. -/
def AppError.EMAIL_ALREADY_EXISTS : AppError :=
  { message := "Email is already registered", statusCode := 409, code := "AUTH_005" }

/-- `AppError.ACCOUNT_LOCKED()`. -/
def AppError.ACCOUNT_LOCKED : AppError :=
  { message := "Account is locked due to too many login attempts", statusCode := 429, code := "AUTH_006" }

/-- `AppError.USER_NOT_FOUND()`. -/
def AppError.USER_NOT_FOUND : AppError :=
  { message := "User not found", statusCode := 404, code := "NOT_FOUND_001" }

/-- `AppError.RESET_TOKEN_NOT_FOUND()`. -/
def AppError.RESET_TOKEN_NOT_FOUND : AppError :=
  { message := "Password reset token not found or expired", statusCode := 404, code := "NOT_FOUND_004" }

/-- The lockout test in loginUser:
`user.accountLockedUntil && user.accountLockedUntil > Date.now()`. -/
def isLockedAt (u : User) (nowMs : Nat) : Bool :=
  match u.accountLockedUntil with
  | some t => decide (nowMs < t)
  | none => false

/-- Helper `createRefreshToken(user)`: sign a 7-day refresh token, append
`{token, expiresAt: now+7d}` to `user.refreshTokens`, persist (the caller
saves the returned record). -/
def createRefreshToken (u : User) (nowMs : Nat) : Jwt × User :=
  let refreshToken := signRefreshToken u.id nowMs
  (refreshToken,
    { u with refreshTokens :=
        u.refreshTokens ++ [{ token := refreshToken, expiresAt := nowMs + 7 * 24 * 60 * 60 * 1000 }] })

/-- Success body of login/register: token pair plus public user fields. -/
structure TokenPairResp where
  status : Nat
  accessToken : Jwt
  refreshToken : Jwt
  userId : Nat
  email : String
  displayName : String
deriving DecidableEq, Repr

/-- Outcome of `loginUser`: the HTTP result, the store after the request,
and whether `bcrypt.compare` was executed (the hashing side effect). -/
structure LoginOutcome where
  result : Except AppError TokenPairResp
  db : Db
  hashCompared : Bool
deriving Repr

/-- `POST /api/auth/login` (loginUser): look up by (validated, normalized)
email; refuse while locked; on hash mismatch increment `loginAttempts` and
lock for 30 minutes once they reach 5; on match reset the counters, record
`lastLoginAt`, and issue an access/refresh pair. -/
def loginUser (db : Db) (email password : String) (nowMs : Nat) : LoginOutcome :=
  match db.find? (fun u => u.email == email) with
  | none => { result := .error AppError.INVALID_CREDENTIALS, db := db, hashCompared := false }
  | some user =>
    if isLockedAt user nowMs then
      { result := .error AppError.ACCOUNT_LOCKED, db := db, hashCompared := false }
    else if !bcryptCompare password user.passwordHash then
      let attempts := user.loginAttempts + 1
      let user' := { user with
        loginAttempts := attempts,
        accountLockedUntil :=
          if 5 ≤ attempts then some (nowMs + 30 * 60 * 1000) else user.accountLockedUntil }
      { result := .error AppError.INVALID_CREDENTIALS, db := saveUser db user', hashCompared := true }
    else
      let user1 := { user with
        loginAttempts := 0, accountLockedUntil := none, lastLoginAt := some nowMs }
      let rtUser := createRefreshToken user1 nowMs
      { result := .ok { status := 200, accessToken := signAccessToken user.id nowMs,
                        refreshToken := rtUser.1, userId := user.id, email := user.email,
                        displayName := user.displayName },
        db := saveUser db rtUser.2, hashCompared := true }

/-- Email normalization performed by the validation layer before the
controller runs (zod `emailSchema` lowercases the address, character by
character). -/
def normalizeEmail (e : String) : String := ⟨e.data.map Char.toLower⟩

/-- `POST /api/auth/register` (registerUser): reject when a user with the
(already normalized) email exists; else hash the password, create the
record with a fresh id, and issue an access/refresh pair. -/
def registerUser (db : Db) (freshId : Nat) (email password displayName : String)
    (nowMs : Nat) : Except AppError TokenPairResp × Db :=
  match db.find? (fun u => u.email == email) with
  | some _ => (.error AppError.EMAIL_ALREADY_EXISTS, db)
  | none =>
    let user : User :=
      { id := freshId, email := email, passwordHash := bcryptHash password,
        displayName := displayName }
    let accessToken := signAccessToken freshId nowMs
    let rtUser := createRefreshToken user nowMs
    (.ok { status := 201, accessToken := accessToken, refreshToken := rtUser.1,
           userId := freshId, email := email, displayName := displayName },
     db ++ [rtUser.2])

/-- A plain `{message}` JSON response with its HTTP status. -/
structure MsgResp where
  status : Nat
  message : String
deriving DecidableEq, Repr

/-- `POST /api/auth/forgot-password` (forgotPassword): always answer 200
with the same generic message; when the user exists, store the sha256 hash
of a fresh random token (`resetTokenRaw`, the `crypto.randomBytes` output)
with a 15-minute expiry and dispatch the email out of band. -/
def forgotPassword (db : Db) (email resetTokenRaw : String) (nowMs : Nat) :
    Except AppError MsgResp × Db :=
  match db.find? (fun u => u.email == email) with
  | none =>
    (.ok { status := 200, message := "If that email exists, a reset link has been sent." }, db)
  | some user =>
    let hashedToken := sha256Hex resetTokenRaw
    let user' := { user with
      passwordResetToken := some hashedToken,
      passwordResetExpires := some (nowMs + 15 * 60 * 1000) }
    (.ok { status := 200, message := "If that email exists, a reset link has been sent." },
     saveUser db user')

/-- `POST /api/auth/reset-password` (resetPassword): look up a user whose
stored reset-token hash matches the sha256 of the presented token and
whose expiry is still in the future; on match set the new password hash,
clear the reset fields, record the change time, and reset the lockout
counters.  (The source leaves `refreshTokens` untouched.) -/
def resetPassword (db : Db) (token newPassword : String) (nowMs : Nat) :
    Except AppError MsgResp × Db :=
  let hashedToken := sha256Hex token
  match db.find? (fun u =>
      u.passwordResetToken == some hashedToken &&
        match u.passwordResetExpires with
        | some e => decide (nowMs < e)
        | none => false) with
  | none => (.error AppError.RESET_TOKEN_NOT_FOUND, db)
  | some user =>
    let user' := { user with
      passwordHash := bcryptHash newPassword,
      passwordResetToken := none,
      passwordResetExpires := none,
      passwordChangedAt := some nowMs,
      lastPasswordChangeAt := some nowMs,
      loginAttempts := 0,
      accountLockedUntil := none }
    (.ok { status := 200, message := "Password has been reset successfully" },
     saveUser db user')

/-- `PUT /api/auth/change-password` (changePassword): authenticated via
`req.user.userId`; reject same new password, missing user, or wrong
current password; else store the new hash and record the change time. -/
def changePassword (db : Db) (userId : Option Nat) (currentPassword newPassword : String)
    (nowMs : Nat) : Except AppError MsgResp × Db :=
  match userId with
  | none => (.error AppError.UNAUTHORIZED, db)
  | some uid =>
    if currentPassword == newPassword then
      (.error { message := "New password must be different from old password",
                statusCode := 400, code := "VALIDATION_013" }, db)
    else
      match db.find? (fun u => u.id == uid) with
      | none => (.error AppError.USER_NOT_FOUND, db)
      | some user =>
        if !bcryptCompare currentPassword user.passwordHash then
          (.error AppError.INVALID_CREDENTIALS_current, db)
        else
          let user' := { user with
            passwordHash := bcryptHash newPassword,
            passwordChangedAt := some nowMs,
            lastPasswordChangeAt := some nowMs }
          (.ok { status := 200, message := "Password updated successfully" },
           saveUser db user')

/-- Success body of `POST /api/auth/refresh`. -/
structure RefreshResp where
  status : Nat
  accessToken : Jwt
  refreshToken : Jwt
deriving DecidableEq, Repr

/-- `POST /api/auth/refresh` (refreshAccessToken): verify the presented
refresh token cryptographically, find its subject, require a live matching
entry in `user.refreshTokens`, then rotate: remove every entry bearing the
presented token, append a fresh 7-day entry, and answer with a new pair. -/
def refreshAccessToken (db : Db) (refreshToken : Option Jwt) (nowMs : Nat) :
    Except AppError RefreshResp × Db :=
  match refreshToken with
  | none =>
    (.error { message := "Refresh token is required", statusCode := 400,
              code := "VALIDATION_014" }, db)
  | some tok =>
    match jwtVerify tok JWT_REFRESH_SECRET nowMs with
    | none =>
      (.error { message := "Invalid or expired refresh token", statusCode := 401,
                code := "AUTH_004" }, db)
    | some decoded =>
      match db.find? (fun u => u.id == decoded.userId) with
      | none => (.error AppError.USER_NOT_FOUND, db)
      | some user =>
        match user.refreshTokens.find? (fun t => t.token == tok && decide (nowMs < t.expiresAt)) with
        | none =>
          (.error { message := "Refresh token has expired or is invalid", statusCode := 401,
                    code := "AUTH_004" }, db)
        | some _ =>
          let newAccessToken := signAccessToken user.id nowMs
          let user1 := { user with
            refreshTokens := user.refreshTokens.filter fun t => t.token ≠ tok }
          let rtUser := createRefreshToken user1 nowMs
          (.ok { status := 200, accessToken := newAccessToken, refreshToken := rtUser.1 },
           saveUser db rtUser.2)

/-- Result of the access-token middleware: attach `req.user` or answer 401
with the given message. -/
inductive AuthCheck where
  | ok (userId : Nat)
  | unauthorized (message : String)
deriving DecidableEq, Repr

/-- The bearer-token middleware (authMiddleware): require a bearer token,
verify it against `JWT_SECRET`, load the subject, and reject tokens whose
`iat` (seconds) is before `floor(passwordChangedAt / 1000)` — the
stale-after-password-change check. -/
def authMiddleware (db : Db) (bearer : Option Jwt) (nowMs : Nat) : AuthCheck :=
  match bearer with
  | none => .unauthorized "Not authorized, no token provided"
  | some tok =>
    match jwtVerify tok JWT_SECRET nowMs with
    | none => .unauthorized "Not authorized, invalid token"
    | some decoded =>
      match db.find? (fun u => u.id == decoded.userId) with
      | none => .unauthorized "Not authorized, user not found"
      | some user =>
        match user.passwordChangedAt with
        | some changedMs =>
          if decoded.iat < changedMs / 1000 then
            .unauthorized "Not authorized, password recently changed"
          else
            .ok decoded.userId
        | none => .ok decoded.userId

/-- A demonstration record used to instantiate the theorems. -/
def demoUser : User :=
  { id := 1, email := "a@x.com", passwordHash := bcryptHash "goodpass123", displayName := "A" }

/-- C5: while `accountLockedUntil` is in the future, `loginUser` answers
`ACCOUNT_LOCKED` (429) for any presented password — correct or not — runs
no bcrypt comparison, and leaves the store (hence `loginAttempts` and
`accountLockedUntil`) unchanged. -/
theorem locked_login_refused_without_hashing (u : User) (password : String) (nowMs L : Nat)
    (hL : u.accountLockedUntil = some L) (hfut : nowMs < L) :
    loginUser [u] u.email password nowMs =
      { result := .error AppError.ACCOUNT_LOCKED, db := [u], hashCompared := false } := by
  simp [loginUser, List.find?, isLockedAt, hL, hfut]

/-- Witness for C5: a concrete locked user is refused even with the
correct password. -/
theorem locked_login_refused_without_hashing_witness :
    loginUser [{ demoUser with accountLockedUntil := some 1000, loginAttempts := 3 }]
        "a@x.com" "goodpass123" 500 =
      { result := .error AppError.ACCOUNT_LOCKED,
        db := [{ demoUser with accountLockedUntil := some 1000, loginAttempts := 3 }],
        hashCompared := false } :=
  locked_login_refused_without_hashing
    { demoUser with accountLockedUntil := some 1000, loginAttempts := 3 }
    "goodpass123" 500 1000 rfl (by decide)

/-- C4: for an unlocked user, a failed password verification increments
`loginAttempts` by exactly one; once the counter reaches 5 the account is
locked with `accountLockedUntil = now + 30min` (below 5 the lock field is
untouched); the failure is reported as `INVALID_CREDENTIALS` (401). -/
theorem failed_login_increments_and_locks (u : User) (password : String) (nowMs : Nat)
    (hunlocked : isLockedAt u nowMs = false)
    (hwrong : bcryptCompare password u.passwordHash = false) :
    ∃ u' : User,
      loginUser [u] u.email password nowMs =
        { result := .error AppError.INVALID_CREDENTIALS, db := [u'], hashCompared := true } ∧
      u'.loginAttempts = u.loginAttempts + 1 ∧
      (5 ≤ u.loginAttempts + 1 → u'.accountLockedUntil = some (nowMs + 30 * 60 * 1000)) ∧
      (u.loginAttempts + 1 < 5 → u'.accountLockedUntil = u.accountLockedUntil) := by
  refine ⟨{ u with
    loginAttempts := u.loginAttempts + 1,
    accountLockedUntil :=
      if 5 ≤ u.loginAttempts + 1 then some (nowMs + 30 * 60 * 1000)
      else u.accountLockedUntil }, ?_, rfl, ?_, ?_⟩
  · simp [loginUser, List.find?, hunlocked, hwrong, saveUser]
  · intro h
    simp [h]
  · intro h
    simp [Nat.not_le.mpr h]

/-- Witness for C4: the demonstration user at 4 prior failures is locked
by the fifth failure. -/
theorem failed_login_increments_and_locks_witness :
    ∃ u' : User,
      loginUser [{ demoUser with loginAttempts := 4 }] "a@x.com" "wrongpass" 500 =
        { result := .error AppError.INVALID_CREDENTIALS, db := [u'], hashCompared := true } ∧
      u'.loginAttempts = 4 + 1 ∧
      (5 ≤ 4 + 1 → u'.accountLockedUntil = some (500 + 30 * 60 * 1000)) ∧
      (4 + 1 < 5 → u'.accountLockedUntil = none) :=
  failed_login_increments_and_locks { demoUser with loginAttempts := 4 }
    "wrongpass" 500 rfl rfl

/-- C7: an unlocked user with fewer than 5 failures who presents the
correct password logs in successfully (200) and ends with
`loginAttempts = 0` and `accountLockedUntil` cleared. -/
theorem successful_login_resets_lockout (u : User) (password : String) (nowMs : Nat)
    (hn : u.loginAttempts < 5)
    (hunlocked : isLockedAt u nowMs = false)
    (hmatch : bcryptCompare password u.passwordHash = true) :
    ∃ (resp : TokenPairResp) (u' : User),
      loginUser [u] u.email password nowMs =
        { result := .ok resp, db := [u'], hashCompared := true } ∧
      resp.status = 200 ∧ u'.loginAttempts = 0 ∧ u'.accountLockedUntil = none := by
  refine ⟨{ status := 200, accessToken := signAccessToken u.id nowMs,
            refreshToken := signRefreshToken u.id nowMs, userId := u.id,
            email := u.email, displayName := u.displayName },
    { u with
      loginAttempts := 0, accountLockedUntil := none, lastLoginAt := some nowMs,
      refreshTokens := u.refreshTokens ++
        [{ token := signRefreshToken u.id nowMs, expiresAt := nowMs + 7 * 24 * 60 * 60 * 1000 }] },
    ?_, rfl, rfl, rfl⟩
  simp [loginUser, List.find?, hunlocked, hmatch, createRefreshToken, saveUser]

/-- Witness for C7: the demonstration user with 3 failures logs in with
the correct password and is reset. -/
theorem successful_login_resets_lockout_witness :
    ∃ (resp : TokenPairResp) (u' : User),
      loginUser [{ demoUser with loginAttempts := 3 }] "a@x.com" "goodpass123" 500 =
        { result := .ok resp, db := [u'], hashCompared := true } ∧
      resp.status = 200 ∧ u'.loginAttempts = 0 ∧ u'.accountLockedUntil = none :=
  successful_login_resets_lockout { demoUser with loginAttempts := 3 }
    "goodpass123" 500 (by decide) rfl rfl

/-- C10: when the lock window has expired but `loginAttempts` is still at
or above 5, one further failed attempt immediately re-locks the account
with `accountLockedUntil = now + 30min`, and every login during the new
window is refused with `ACCOUNT_LOCKED` regardless of the password. -/
theorem expired_lock_single_failure_relocks (u : User) (password : String) (nowMs L : Nat)
    (hge : 5 ≤ u.loginAttempts)
    (hL : u.accountLockedUntil = some L) (hpast : L ≤ nowMs)
    (hwrong : bcryptCompare password u.passwordHash = false) :
    ∃ u' : User,
      loginUser [u] u.email password nowMs =
        { result := .error AppError.INVALID_CREDENTIALS, db := [u'], hashCompared := true } ∧
      u'.loginAttempts = u.loginAttempts + 1 ∧
      u'.accountLockedUntil = some (nowMs + 30 * 60 * 1000) ∧
      (∀ (pw2 : String) (nowMs2 : Nat), nowMs2 < nowMs + 30 * 60 * 1000 →
        (loginUser [u'] u.email pw2 nowMs2).result = .error AppError.ACCOUNT_LOCKED) := by
  refine ⟨{ u with
            loginAttempts := u.loginAttempts + 1,
            accountLockedUntil := some (nowMs + 30 * 60 * 1000) }, ?_, rfl, rfl, ?_⟩
  · have hlock : isLockedAt u nowMs = false := by
      simp [isLockedAt, hL, Nat.not_lt.mpr hpast]
    have h5 : 5 ≤ u.loginAttempts + 1 := Nat.le_succ_of_le hge
    simp [loginUser, List.find?, hlock, hwrong, saveUser, h5]
  · intro pw2 nowMs2 hwin
    simp [loginUser, List.find?, isLockedAt, hwin]

/-- Witness for C10: a user whose 30-minute lock has lapsed with 5 recorded
failures is re-locked by a single further failure. -/
theorem expired_lock_single_failure_relocks_witness :
    ∃ u' : User,
      loginUser [{ demoUser with loginAttempts := 5, accountLockedUntil := some 400 }]
          "a@x.com" "wrongpass" 500 =
        { result := .error AppError.INVALID_CREDENTIALS, db := [u'], hashCompared := true } ∧
      u'.loginAttempts = 5 + 1 ∧
      u'.accountLockedUntil = some (500 + 30 * 60 * 1000) ∧
      (∀ (pw2 : String) (nowMs2 : Nat), nowMs2 < 500 + 30 * 60 * 1000 →
        (loginUser [u'] "a@x.com" pw2 nowMs2).result = .error AppError.ACCOUNT_LOCKED) :=
  expired_lock_single_failure_relocks
    { demoUser with loginAttempts := 5, accountLockedUntil := some 400 }
    "wrongpass" 500 400 (by decide) rfl (by decide) rfl

/-- C9: forgot-password for an email with no matching user answers 200
with the generic message and performs no write — the store is returned
unchanged; moreover every forgot-password call (existing email or not)
answers 200 with that same generic message. -/
theorem forgot_password_unknown_email_no_write (db : Db) (email resetTokenRaw : String)
    (nowMs : Nat) (habsent : ∀ u ∈ db, u.email ≠ email) :
    forgotPassword db email resetTokenRaw nowMs =
      (.ok { status := 200, message := "If that email exists, a reset link has been sent." },
       db) ∧
    ∀ (db2 : Db) (e2 r2 : String) (n2 : Nat),
      (forgotPassword db2 e2 r2 n2).1 =
        .ok { status := 200, message := "If that email exists, a reset link has been sent." } := by
  constructor
  · have hfind : db.find? (fun u => u.email == email) = none := by
      rw [List.find?_eq_none]
      intro u hu
      simpa using habsent u hu
    simp [forgotPassword, hfind]
  · intro db2 e2 r2 n2
    unfold forgotPassword
    cases db2.find? (fun u => u.email == e2) <;> simp

/-- Witness for C9: a store holding only the demonstration user answers a
forgot-password request for an unknown address without any write. -/
theorem forgot_password_unknown_email_no_write_witness :
    forgotPassword [demoUser] "b@x.com" "randomtok" 500 =
      (.ok { status := 200, message := "If that email exists, a reset link has been sent." },
       [demoUser]) ∧
    ∀ (db2 : Db) (e2 r2 : String) (n2 : Nat),
      (forgotPassword db2 e2 r2 n2).1 =
        .ok { status := 200, message := "If that email exists, a reset link has been sent." } :=
  forgot_password_unknown_email_no_write [demoUser] "b@x.com" "randomtok" 500
    (by decide)

/-- C6: with a stored reset-token hash and a still-future expiry, the
first redemption succeeds (200) and clears both reset fields, so a second
redemption of the same token fails with `RESET_TOKEN_NOT_FOUND`; any
redemption at or after expiry, and any redemption with a non-matching
token, fail with the very same error — the response does not
distinguish a wrong token from an expired one. -/
theorem reset_token_single_use (u : User) (tok newPassword1 newPassword2 : String)
    (expiry now1 now2 : Nat)
    (hstored : u.passwordResetToken = some (sha256Hex tok))
    (hexp : u.passwordResetExpires = some expiry)
    (hvalid : now1 < expiry) :
    ∃ u' : User,
      resetPassword [u] tok newPassword1 now1 =
        (.ok { status := 200, message := "Password has been reset successfully" }, [u']) ∧
      u'.passwordResetToken = none ∧ u'.passwordResetExpires = none ∧
      resetPassword [u'] tok newPassword2 now2 =
        (.error AppError.RESET_TOKEN_NOT_FOUND, [u']) ∧
      (∀ (np : String) (n3 : Nat), expiry ≤ n3 →
        resetPassword [u] tok np n3 = (.error AppError.RESET_TOKEN_NOT_FOUND, [u])) ∧
      (∀ (tok2 np : String) (n3 : Nat), u.passwordResetToken ≠ some (sha256Hex tok2) →
        resetPassword [u] tok2 np n3 = (.error AppError.RESET_TOKEN_NOT_FOUND, [u])) := by
  refine ⟨{ u with
            passwordHash := bcryptHash newPassword1,
            passwordResetToken := none,
            passwordResetExpires := none,
            passwordChangedAt := some now1,
            lastPasswordChangeAt := some now1,
            loginAttempts := 0,
            accountLockedUntil := none }, ?_, rfl, rfl, ?_, ?_, ?_⟩
  · simp [resetPassword, List.find?, hstored, hexp, hvalid, saveUser]
  · simp [resetPassword, List.find?]
  · intro np n3 h3
    simp [resetPassword, List.find?, hstored, hexp, Nat.not_lt.mpr h3]
  · intro tok2 np n3 hne
    simp [resetPassword, List.find?, beq_eq_false_iff_ne.mpr hne]

/-- Witness for C6: a concrete user holding the hash of token `tok` with
expiry 10000 is redeemed once at 500 and never again. -/
theorem reset_token_single_use_witness :
    ∃ u' : User,
      resetPassword
          [{ demoUser with
             passwordResetToken := some (sha256Hex "tok"),
             passwordResetExpires := some 10000 }] "tok" "brandnewpw1" 500 =
        (.ok { status := 200, message := "Password has been reset successfully" }, [u']) ∧
      u'.passwordResetToken = none ∧ u'.passwordResetExpires = none ∧
      resetPassword [u'] "tok" "brandnewpw2" 600 =
        (.error AppError.RESET_TOKEN_NOT_FOUND, [u']) ∧
      (∀ (np : String) (n3 : Nat), 10000 ≤ n3 →
        resetPassword
            [{ demoUser with
               passwordResetToken := some (sha256Hex "tok"),
               passwordResetExpires := some 10000 }] "tok" np n3 =
          (.error AppError.RESET_TOKEN_NOT_FOUND,
           [{ demoUser with
              passwordResetToken := some (sha256Hex "tok"),
              passwordResetExpires := some 10000 }])) ∧
      (∀ (tok2 np : String) (n3 : Nat),
        ({ demoUser with
           passwordResetToken := some (sha256Hex "tok"),
           passwordResetExpires := some 10000 } : User).passwordResetToken ≠
            some (sha256Hex tok2) →
        resetPassword
            [{ demoUser with
               passwordResetToken := some (sha256Hex "tok"),
               passwordResetExpires := some 10000 }] tok2 np n3 =
          (.error AppError.RESET_TOKEN_NOT_FOUND,
           [{ demoUser with
              passwordResetToken := some (sha256Hex "tok"),
              passwordResetExpires := some 10000 }])) :=
  reset_token_single_use
    { demoUser with
      passwordResetToken := some (sha256Hex "tok"),
      passwordResetExpires := some 10000 }
    "tok" "brandnewpw1" "brandnewpw2" 10000 500 600 rfl rfl (by decide)

/-- C8: with no user yet holding the normalized email, the first
registration succeeds (201) and appends exactly one record; a second
registration whose email normalizes to the same address is refused with
`EMAIL_ALREADY_EXISTS` (status 409) and leaves the store — including the
first registration's record — unchanged. -/
theorem duplicate_register_conflict (db : Db) (freshId1 freshId2 : Nat)
    (e1 e2 password1 password2 name1 name2 : String) (now1 now2 : Nat)
    (hnorm : normalizeEmail e2 = normalizeEmail e1)
    (hfresh : ∀ u ∈ db, u.email ≠ normalizeEmail e1) :
    ∃ (resp : TokenPairResp) (newUser : User),
      registerUser db freshId1 (normalizeEmail e1) password1 name1 now1 =
        (.ok resp, db ++ [newUser]) ∧
      resp.status = 201 ∧ newUser.email = normalizeEmail e1 ∧
      registerUser (db ++ [newUser]) freshId2 (normalizeEmail e2) password2 name2 now2 =
        (.error AppError.EMAIL_ALREADY_EXISTS, db ++ [newUser]) ∧
      AppError.EMAIL_ALREADY_EXISTS.statusCode = 409 := by
  have hfind : db.find? (fun u => u.email == normalizeEmail e1) = none := by
    rw [List.find?_eq_none]
    intro u hu
    simpa using hfresh u hu
  refine ⟨{ status := 201, accessToken := signAccessToken freshId1 now1,
            refreshToken := signRefreshToken freshId1 now1, userId := freshId1,
            email := normalizeEmail e1, displayName := name1 },
          { id := freshId1, email := normalizeEmail e1,
            passwordHash := bcryptHash password1, displayName := name1,
            refreshTokens := [{ token := signRefreshToken freshId1 now1,
                                expiresAt := now1 + 7 * 24 * 60 * 60 * 1000 }] },
          ?_, rfl, rfl, ?_, rfl⟩
  · simp [registerUser, hfind, createRefreshToken]
  · rw [hnorm]
    simp [registerUser, List.find?_append, hfind, List.find?]

/-- Witness for C8: registering `A@X.com` after `a@x.com` on an empty
store is refused with the 409 conflict. -/
theorem duplicate_register_conflict_witness :
    ∃ (resp : TokenPairResp) (newUser : User),
      registerUser [] 1 (normalizeEmail "a@x.com") "goodpass123" "A" 100 =
        (.ok resp, [] ++ [newUser]) ∧
      resp.status = 201 ∧ newUser.email = normalizeEmail "a@x.com" ∧
      registerUser ([] ++ [newUser]) 2 (normalizeEmail "A@X.com") "otherpass9" "B" 200 =
        (.error AppError.EMAIL_ALREADY_EXISTS, [] ++ [newUser]) ∧
      AppError.EMAIL_ALREADY_EXISTS.statusCode = 409 :=
  duplicate_register_conflict [] 1 2 "a@x.com" "A@X.com" "goodpass123" "otherpass9"
    "A" "B" 100 200 (by decide) (by simp)

/-- Demonstration record for the reset flow: one live refresh token and a
stored, unexpired reset-token hash. -/
def demoResetUser : User :=
  { demoUser with
    refreshTokens := [{ token := signRefreshToken 1 0, expiresAt := 604800000 }],
    passwordResetToken := some (sha256Hex "tok"),
    passwordResetExpires := some 10000 }

/-- C2 counterexample: a successful reset-password call on a user holding
one live refresh token answers 200, yet the persisted record still holds
that refresh token — `refreshTokens` is not emptied, so live sessions are
not revoked. -/
theorem reset_password_keeps_refresh_tokens_cex :
    (resetPassword [demoResetUser] "tok" "brandnewpw1" 500).1 =
      .ok { status := 200, message := "Password has been reset successfully" } ∧
    (resetPassword [demoResetUser] "tok" "brandnewpw1" 500).2.map User.refreshTokens =
      [[{ token := signRefreshToken 1 0, expiresAt := 604800000 }]] ∧
    ([[{ token := signRefreshToken 1 0, expiresAt := 604800000 }]] :
        List (List RefreshEntry)) ≠ [[]] :=
  ⟨rfl, rfl, by decide⟩

/-- C2 (amended): a successful reset-password leaves the user with the new
password hash, cleared reset-token fields, `passwordChangedAt = now`,
`loginAttempts = 0` and `accountLockedUntil` cleared — but `refreshTokens`
is left exactly as it was (the source does not revoke refresh tokens on
reset). -/
theorem reset_password_success_state (u : User) (tok newPassword : String)
    (expiry nowMs : Nat)
    (hstored : u.passwordResetToken = some (sha256Hex tok))
    (hexp : u.passwordResetExpires = some expiry)
    (hvalid : nowMs < expiry) :
    ∃ u' : User,
      resetPassword [u] tok newPassword nowMs =
        (.ok { status := 200, message := "Password has been reset successfully" }, [u']) ∧
      u'.passwordHash = bcryptHash newPassword ∧
      u'.passwordResetToken = none ∧
      u'.passwordResetExpires = none ∧
      u'.passwordChangedAt = some nowMs ∧
      u'.loginAttempts = 0 ∧
      u'.accountLockedUntil = none ∧
      u'.refreshTokens = u.refreshTokens := by
  refine ⟨{ u with
            passwordHash := bcryptHash newPassword,
            passwordResetToken := none,
            passwordResetExpires := none,
            passwordChangedAt := some nowMs,
            lastPasswordChangeAt := some nowMs,
            loginAttempts := 0,
            accountLockedUntil := none }, ?_, rfl, rfl, rfl, rfl, rfl, rfl, rfl⟩
  simp [resetPassword, List.find?, hstored, hexp, hvalid, saveUser]

/-- Witness for the amended C2 at the demonstration reset user. -/
theorem reset_password_success_state_witness :
    ∃ u' : User,
      resetPassword [demoResetUser] "tok" "brandnewpw1" 500 =
        (.ok { status := 200, message := "Password has been reset successfully" }, [u']) ∧
      u'.passwordHash = bcryptHash "brandnewpw1" ∧
      u'.passwordResetToken = none ∧
      u'.passwordResetExpires = none ∧
      u'.passwordChangedAt = some 500 ∧
      u'.loginAttempts = 0 ∧
      u'.accountLockedUntil = none ∧
      u'.refreshTokens = demoResetUser.refreshTokens :=
  reset_password_success_state demoResetUser "tok" "brandnewpw1" 10000 500
    rfl rfl (by decide)

/-- C3 counterexample: the password is changed at 1500 ms; an access token
issued at 1000 ms — strictly before the change — is still accepted at
2000 ms, because the middleware compares whole seconds: the token's
`iat = 1` is not less than `floor(1500 / 1000) = 1`. -/
theorem stale_token_same_second_accepted_cex :
    (changePassword [demoUser] (some 1) "goodpass123" "newpass1234" 1500).1 =
      .ok { status := 200, message := "Password updated successfully" } ∧
    (1000 : Nat) < 1500 ∧
    authMiddleware (changePassword [demoUser] (some 1) "goodpass123" "newpass1234" 1500).2
        (some (signAccessToken 1 1000)) 2000 = .ok 1 :=
  ⟨rfl, by decide, rfl⟩

/-- C3 (amended): after a successful ChangePassword, or a successful
password reset, at time T, access-token verification rejects every
otherwise-valid token issued in an earlier whole second than T
(`floor(issuedAt/1000) < floor(T/1000)`), and accepts every
otherwise-valid, unexpired token issued in the same second as T or later.
(Tokens issued before T but within T's second are accepted — the
comparison has second granularity.) -/
theorem access_token_stale_only_if_earlier_second (u v : User)
    (currentPassword newPassword tok newPassword2 : String)
    (changeMs issueMs verifyMs expiry : Nat)
    (hdiff : (currentPassword == newPassword) = false)
    (hmatch : bcryptCompare currentPassword u.passwordHash = true)
    (hstored : v.passwordResetToken = some (sha256Hex tok))
    (hexp : v.passwordResetExpires = some expiry)
    (hvalid : changeMs < expiry)
    (hunexpired : verifyMs / 1000 < issueMs / 1000 + 15 * 60) :
    ∃ u' v' : User,
      changePassword [u] (some u.id) currentPassword newPassword changeMs =
        (.ok { status := 200, message := "Password updated successfully" }, [u']) ∧
      resetPassword [v] tok newPassword2 changeMs =
        (.ok { status := 200, message := "Password has been reset successfully" }, [v']) ∧
      (issueMs / 1000 < changeMs / 1000 →
        authMiddleware [u'] (some (signAccessToken u.id issueMs)) verifyMs =
          .unauthorized "Not authorized, password recently changed" ∧
        authMiddleware [v'] (some (signAccessToken v.id issueMs)) verifyMs =
          .unauthorized "Not authorized, password recently changed") ∧
      (changeMs / 1000 ≤ issueMs / 1000 →
        authMiddleware [u'] (some (signAccessToken u.id issueMs)) verifyMs = .ok u.id ∧
        authMiddleware [v'] (some (signAccessToken v.id issueMs)) verifyMs = .ok v.id) := by
  refine ⟨{ u with
            passwordHash := bcryptHash newPassword,
            passwordChangedAt := some changeMs,
            lastPasswordChangeAt := some changeMs },
          { v with
            passwordHash := bcryptHash newPassword2,
            passwordResetToken := none,
            passwordResetExpires := none,
            passwordChangedAt := some changeMs,
            lastPasswordChangeAt := some changeMs,
            loginAttempts := 0,
            accountLockedUntil := none }, ?_, ?_, ?_, ?_⟩
  · simp [changePassword, hdiff, List.find?, hmatch, saveUser]
  · simp [resetPassword, List.find?, hstored, hexp, hvalid, saveUser]
  · intro hstale
    constructor <;>
      simp [authMiddleware, jwtVerify, signAccessToken, jwtSign, hunexpired,
            List.find?, hstale]
  · intro hfresh
    constructor <;>
      simp [authMiddleware, jwtVerify, signAccessToken, jwtSign, hunexpired,
            List.find?, Nat.not_lt.mpr hfresh]

/-- Witness for the amended C3: a token from second 0 is rejected after a
change in second 1, for both the change-password and reset paths. -/
theorem access_token_stale_only_if_earlier_second_witness :
    ∃ u' v' : User,
      changePassword [demoUser] (some demoUser.id) "goodpass123" "newpass1234" 1500 =
        (.ok { status := 200, message := "Password updated successfully" }, [u']) ∧
      resetPassword [demoResetUser] "tok" "brandnewpw1" 1500 =
        (.ok { status := 200, message := "Password has been reset successfully" }, [v']) ∧
      (500 / 1000 < 1500 / 1000 →
        authMiddleware [u'] (some (signAccessToken demoUser.id 500)) 2000 =
          .unauthorized "Not authorized, password recently changed" ∧
        authMiddleware [v'] (some (signAccessToken demoResetUser.id 500)) 2000 =
          .unauthorized "Not authorized, password recently changed") ∧
      (1500 / 1000 ≤ 500 / 1000 →
        authMiddleware [u'] (some (signAccessToken demoUser.id 500)) 2000 = .ok demoUser.id ∧
        authMiddleware [v'] (some (signAccessToken demoResetUser.id 500)) 2000 =
          .ok demoResetUser.id) :=
  access_token_stale_only_if_earlier_second demoUser demoResetUser
    "goodpass123" "newpass1234" "tok" "brandnewpw1" 1500 500 2000 10000
    rfl rfl rfl rfl (by decide) (by decide)

/-- Helper: a refresh call whose token verifies cryptographically and
names an existing user, but has no live matching entry in that user's
`refreshTokens`, answers the registry-miss 401 and writes nothing. -/
theorem refreshAccessToken_registry_miss (w : User) (tok : Jwt) (nowMs : Nat)
    (hkey : tok.key = JWT_REFRESH_SECRET) (hsub : tok.userId = w.id)
    (hcv : nowMs / 1000 < tok.exp)
    (hnone : w.refreshTokens.find?
      (fun t => t.token == tok && decide (nowMs < t.expiresAt)) = none) :
    refreshAccessToken [w] (some tok) nowMs =
      (.error { message := "Refresh token has expired or is invalid", statusCode := 401,
                code := "AUTH_004" }, [w]) := by
  have hverify : jwtVerify tok JWT_REFRESH_SECRET nowMs = some tok := by
    simp [jwtVerify, hkey, hcv]
  have hdb : List.find? (fun w0 : User => w0.id == tok.userId) [w] = some w := by
    simp [List.find?, hsub]
  unfold refreshAccessToken
  simp only [hverify, hdb, hnone]

/-- C1 counterexample: when the rotating Refresh call lands in the very
second the presented token was signed, deterministic JWT signing
(`jwt.sign` with whole-second `iat`/`exp`) re-issues the identical token:
the rotation at 5500 ms replaces the token signed at 5000 ms with itself
(`signRefreshToken 1 5500 = signRefreshToken 1 5000`), the registry again
holds it, and a second Refresh presenting the same token at 6000 ms
succeeds with 200 instead of being rejected — so an accepted token can
verify again. -/
theorem refresh_same_second_reuse_accepted_cex :
    signRefreshToken 1 5500 = signRefreshToken 1 5000 ∧
    (refreshAccessToken
        [{ demoUser with
           refreshTokens := [{ token := signRefreshToken 1 5000, expiresAt := 604800000 }] }]
        (some (signRefreshToken 1 5000)) 5500).1 =
      .ok { status := 200, accessToken := signAccessToken 1 5500,
            refreshToken := signRefreshToken 1 5500 } ∧
    (refreshAccessToken
        (refreshAccessToken
          [{ demoUser with
             refreshTokens := [{ token := signRefreshToken 1 5000, expiresAt := 604800000 }] }]
          (some (signRefreshToken 1 5000)) 5500).2
        (some (signRefreshToken 1 5000)) 6000).1 =
      .ok { status := 200, accessToken := signAccessToken 1 6000,
            refreshToken := signRefreshToken 1 6000 } :=
  ⟨by decide, rfl, rfl⟩

/-- C1 (amended): a refresh token accepted by one successful Refresh call
and signed in an earlier whole second than that call (`hiat` — so the
rotation's replacement token differs from it) is removed from the user's
`refreshTokens` set by the rotation, so after the call no entry carries
it, and a second Refresh call presenting the same token is rejected with
the revoked-token failure (401, `AUTH_004`, the registry-miss branch —
`TokenRevoked` in the design's taxonomy).  Without `hiat` the guarantee
fails: a rotation within the token's signing second re-issues the
identical token and reuse succeeds.  The other hypotheses say the token
is cryptographically valid at both calls, belongs to the user, and has a
live registry entry at the first call. -/
theorem refresh_rotation_single_use (u : User) (tok : Jwt) (now1 now2 : Nat)
    (hkey : tok.key = JWT_REFRESH_SECRET)
    (hsub : tok.userId = u.id)
    (hlive : ∃ e ∈ u.refreshTokens, e.token = tok ∧ now1 < e.expiresAt)
    (hcv1 : now1 / 1000 < tok.exp)
    (hcv2 : now2 / 1000 < tok.exp)
    (hiat : tok.iat ≠ now1 / 1000) :
    ∃ (resp : RefreshResp) (u' : User),
      refreshAccessToken [u] (some tok) now1 = (.ok resp, [u']) ∧
      resp.status = 200 ∧
      (∀ e ∈ u'.refreshTokens, e.token ≠ tok) ∧
      refreshAccessToken [u'] (some tok) now2 =
        (.error { message := "Refresh token has expired or is invalid", statusCode := 401,
                  code := "AUTH_004" }, [u']) := by
  obtain ⟨e, hemem, hetok, helive⟩ := hlive
  have hnew : signRefreshToken u.id now1 ≠ tok := by
    intro h
    exact hiat (congrArg Jwt.iat h).symm
  have hsome : (u.refreshTokens.find?
      (fun t => t.token == tok && decide (now1 < t.expiresAt))).isSome :=
    List.find?_isSome.mpr ⟨e, hemem, by simp [hetok, helive]⟩
  obtain ⟨e0, hfind1⟩ := Option.isSome_iff_exists.mp hsome
  refine ⟨{ status := 200, accessToken := signAccessToken u.id now1,
            refreshToken := signRefreshToken u.id now1 },
          { u with refreshTokens :=
              (u.refreshTokens.filter fun t => t.token ≠ tok) ++
                [{ token := signRefreshToken u.id now1,
                   expiresAt := now1 + 7 * 24 * 60 * 60 * 1000 }] },
          ?_, rfl, ?_, ?_⟩
  · simp [refreshAccessToken, jwtVerify, hkey, hcv1, hsub, List.find?, hfind1,
          createRefreshToken, saveUser]
  · intro x hx
    rcases List.mem_append.mp hx with hx | hx
    · exact of_decide_eq_true (List.mem_filter.mp hx).2
    · have hx' := List.mem_singleton.mp hx
      rw [hx']
      exact hnew
  · have hfind2 : ((u.refreshTokens.filter fun t : RefreshEntry => t.token ≠ tok) ++
        [({ token := signRefreshToken u.id now1,
            expiresAt := now1 + 7 * 24 * 60 * 60 * 1000 } : RefreshEntry)]).find?
          (fun t : RefreshEntry => t.token == tok && decide (now2 < t.expiresAt)) = none := by
      rw [List.find?_eq_none]
      intro x hx
      rcases List.mem_append.mp hx with hx | hx
      · have hxt : x.token ≠ tok := of_decide_eq_true (List.mem_filter.mp hx).2
        simp [hxt]
      · have hx' := List.mem_singleton.mp hx
        rw [hx']
        simp [hnew]
    exact refreshAccessToken_registry_miss _ tok now2 hkey hsub hcv2 hfind2

/-- Witness for C1: the demonstration user's live refresh token from
second 0 is rotated away at 5000 ms and refused at 6000 ms. -/
theorem refresh_rotation_single_use_witness :
    ∃ (resp : RefreshResp) (u' : User),
      refreshAccessToken
          [{ demoUser with
             refreshTokens := [{ token := signRefreshToken 1 0, expiresAt := 604800000 }] }]
          (some (signRefreshToken 1 0)) 5000 = (.ok resp, [u']) ∧
      resp.status = 200 ∧
      (∀ e ∈ u'.refreshTokens, e.token ≠ signRefreshToken 1 0) ∧
      refreshAccessToken [u'] (some (signRefreshToken 1 0)) 6000 =
        (.error { message := "Refresh token has expired or is invalid", statusCode := 401,
                  code := "AUTH_004" }, [u']) :=
  refresh_rotation_single_use
    { demoUser with
      refreshTokens := [{ token := signRefreshToken 1 0, expiresAt := 604800000 }] }
    (signRefreshToken 1 0) 5000 6000 rfl rfl
    ⟨{ token := signRefreshToken 1 0, expiresAt := 604800000 }, by simp, rfl, by decide⟩
    (by decide) (by decide) (by decide)

end ReactNodeApp
